import Mathlib

/-!
Verification of the fenrir-sabot slot-machine core: a shallow embedding of
`src/models/paytable.py` and `src/db/db_handler.py` (the combination space,
the paytable matching engine, and the transactional account ledger), with
theorems settling the specification claims.

The four concrete slot emoji glyphs are opaque distinct string constants in
the source; they are represented here by their symbolic names "SEVEN",
"BAR", "LEMON", "GRAPE", and the wildcard `ANY` by the empty string, exactly
preserving the distinctness and lookup structure the code relies on.
-/

namespace Fenrir

/-- `SlotEmoji` enum from `paytable.py`: four concrete symbols and the
wildcard marker `ANY`. -/
inductive SlotEmoji where
  | seven
  | bar
  | lemon
  | grape
  | any
deriving DecidableEq, Repr

/-- The enum member's string value (the emoji glyph, abstracted to its name;
`ANY` has the empty string as in the source). -/
def SlotEmoji.value : SlotEmoji → String
  | .seven => "SEVEN"
  | .bar => "BAR"
  | .lemon => "LEMON"
  | .grape => "GRAPE"
  | .any => ""

/-- Iteration order of the enum members, as declared in the source class. -/
def emojiMembers : List SlotEmoji := [.seven, .bar, .lemon, .grape, .any]

/-- `SlotEmoji.from_value`: scan the members for one whose value equals the
token; default to `ANY` when none matches. -/
def SlotEmoji.from_value (v : String) : SlotEmoji :=
  (emojiMembers.find? (fun e => e.value = v)).getD .any

/-- Python's `SlotEmoji[name]` lookup by member name (raises `KeyError`,
modelled as `none`, for an unknown name). -/
def SlotEmoji.fromName (n : String) : Option SlotEmoji :=
  (emojiMembers.find? (fun e =>
    match e with
    | .seven => n = "SEVEN"
    | .bar => n = "BAR"
    | .lemon => n = "LEMON"
    | .grape => n = "GRAPE"
    | .any => n = "ANY"))

/-- A paytable entry: a pattern of match symbols plus a payout multiplier
(`PaytableEntry` in `paytable.py`; multipliers are non-negative integers). -/
structure PaytableEntry where
  combo : List SlotEmoji
  payout_mult : Nat
deriving DecidableEq, Repr

/-- `PaytableEntry.__init__`: each configuration token is mapped through
`SlotEmoji.from_value`. -/
def PaytableEntry.ofConfig (combo : List String) (payout_mult : Nat) : PaytableEntry :=
  ⟨combo.map SlotEmoji.from_value, payout_mult⟩

/-- `PaytableEntry.matches`: lengths must agree, and every pattern position
must be `ANY` or have its value equal to the slot result's symbol there. -/
def PaytableEntry.matches (e : PaytableEntry) (slot_result : List String) : Bool :=
  if e.combo.length ≠ slot_result.length then
    false
  else
    (e.combo.zip slot_result).all (fun p => p.1 = SlotEmoji.any || p.1.value = p.2)

/-- `Paytable._load_from_config` for a list config: reject an empty list
(`ValueError("Empty paytable config")`), otherwise build every entry.
No other validation is performed. -/
def loadFromConfig (cfg : List (List String × Nat)) :
    Except String (List PaytableEntry) :=
  if cfg.length = 0 then
    .error "Empty paytable config"
  else
    .ok (cfg.map (fun p => PaytableEntry.ofConfig p.1 p.2))

/-- The first-match payout loop shared by `Paytable.get_payout_multiplier`
and `DbHandler.process_slot_machine`: return the multiplier of the first
matching entry, or 0 when no entry matches. -/
def resolveEntries : List PaytableEntry → List String → Nat
  | [], _ => 0
  | e :: rest, slot =>
    if e.matches slot then e.payout_mult else resolveEntries rest slot

/-! ## Combination space (`DbHandler.setup_slot_machine_values`) -/

/-- The fixed symbol alphabet, in the source's iteration order. -/
def symbols : List String := ["bar", "grape", "lemon", "seven"]

/-- `SLOT_MACHINE_VALUE` built as in the source: three nested loops over the
alphabet, appending `(index, (first, second, third))` with the index counter
starting at 1 and incrementing once per appended combination. -/
def slotMachineValueList : List (Nat × (String × String × String)) :=
  symbols.foldl (fun acc1 first =>
    symbols.foldl (fun acc2 second =>
      symbols.foldl (fun acc3 third =>
        acc3 ++ [(acc3.length + 1, (first, second, third))]) acc2) acc1) []

/-- Dictionary lookup `self.SLOT_MACHINE_VALUE[value]` (missing key raises
`KeyError`, modelled as `none`). -/
def SLOT_MACHINE_VALUE (value : Int) : Option (String × String × String) :=
  (slotMachineValueList.find? (fun p => (p.1 : Int) = value)).map Prod.snd

/-- The reverse map `COMBINATIONS[key]`, keyed by `"first_second_third"`. -/
def COMBINATIONS (key : String) : Option Nat :=
  (slotMachineValueList.find? (fun p =>
    p.2.1 ++ "_" ++ p.2.2.1 ++ "_" ++ p.2.2.2 = key)).map Prod.fst

/-- Precomputed triple indices (`COMBINATIONS` lookups at construction). -/
def TRIPLE_SEVEN : Nat := (COMBINATIONS "seven_seven_seven").getD 0

/-- Precomputed triple-bar index. -/
def TRIPLE_BAR : Nat := (COMBINATIONS "bar_bar_bar").getD 0

/-- Precomputed triple-lemon index. -/
def TRIPLE_LEMON : Nat := (COMBINATIONS "lemon_lemon_lemon").getD 0

/-- Precomputed triple-grape index. -/
def TRIPLE_GRAPE : Nat := (COMBINATIONS "grape_grape_grape").getD 0

/-- `DOUBLE_BAR_COMBOS`: the indices of `bar_bar_X`, `bar_X_bar`, and
`X_bar_bar` for every non-bar symbol `X`, in the source's concatenation
order. -/
def DOUBLE_BAR_COMBOS : List Nat :=
  ((symbols.filter (fun s => s ≠ "bar")).map
      (fun s => (COMBINATIONS ("bar_bar_" ++ s)).getD 0))
    ++ ((symbols.filter (fun s => s ≠ "bar")).map
      (fun s => (COMBINATIONS ("bar_" ++ s ++ "_bar")).getD 0))
    ++ ((symbols.filter (fun s => s ≠ "bar")).map
      (fun s => (COMBINATIONS (s ++ "_bar_bar")).getD 0))

/-- `DbHandler.get_combo_name`: named triples and the double-bar set first,
otherwise the capitalized symbol names joined by "-" (the fallback reads
`SLOT_MACHINE_VALUE[value]`, so an unknown index raises `KeyError`,
modelled as `none`). -/
def get_combo_name (value : Int) : Option String :=
  if value = (TRIPLE_SEVEN : Int) then some "Triple Seven"
  else if value = (TRIPLE_BAR : Int) then some "Triple Bar"
  else if value = (TRIPLE_LEMON : Int) then some "Triple Lemon"
  else if value = (TRIPLE_GRAPE : Int) then some "Triple Grape"
  else if DOUBLE_BAR_COMBOS.any (fun c => (c : Int) = value) then some "Double Bar"
  else
    (SLOT_MACHINE_VALUE value).map (fun s =>
      s.1.capitalize ++ "-" ++ s.2.1.capitalize ++ "-" ++ s.2.2.capitalize)

/-! ## Account ledger (`DbHandler` state and operations) -/

/-- A row of the `Gambler_Tally` table. -/
structure GamblerRow where
  id : Int
  name : String
  tally : List Nat
  balance_cents : Int
  username : String
deriving DecidableEq, Repr

/-- A row of the append-only `Gambler_Ledger` table. -/
structure LedgerRow where
  user_id : Int
  emoji : String
  value : Int
  slot_paytable : String
  bet_cents : Nat
deriving DecidableEq, Repr

/-- The persisted database state: the account table and the ledger. -/
structure DbState where
  gamblers : List GamblerRow
  ledger : List LedgerRow
deriving DecidableEq, Repr

/-- Runtime configuration bits the ledger consults (`Config.dev_mode`). -/
structure BotConfig where
  dev_mode : Bool
deriving DecidableEq, Repr

/-- Exceptions the Python code can raise while processing a play. The
`outOfRange` constructor stands for the dedicated out-of-range error named
by the specification; the code itself only produces `keyError` (missing
dictionary key) and `indexError` (list index out of bounds). -/
inductive PlayError where
  | keyError
  | indexError
  | outOfRange
deriving DecidableEq, Repr

/-- Python list index resolution: a negative index counts from the end;
out-of-bounds yields `none` (an `IndexError`). -/
def pyIndex (n : Nat) (i : Int) : Option Nat :=
  let j : Int := if i < 0 then (n : Int) + i else i
  if 0 ≤ j ∧ j < (n : Int) then some j.toNat else none

/-- Replace the element at position `j` by `f` of it (in-bounds update). -/
def listModify {α : Type} : List α → Nat → (α → α) → List α
  | [], _, _ => []
  | x :: xs, 0, f => f x :: xs
  | x :: xs, n + 1, f => x :: listModify xs n f

/-- `DbHandler.init_data`: insert a fresh row with an all-zero 64-slot tally
and zero balance, committing immediately; return the new row. -/
def init_data (st : DbState) (id : Int) (name username : String) :
    GamblerRow × DbState :=
  let row : GamblerRow := ⟨id, name, List.replicate 64 0, 0, username⟩
  (row, { st with gamblers := st.gamblers ++ [row] })

/-- `DbHandler.get_data`: return the stored row for `id`, provisioning one
via `init_data` when none exists. -/
def get_data (st : DbState) (id : Int) (name username : String) :
    GamblerRow × DbState :=
  match st.gamblers.find? (fun r => r.id = id) with
  | some row => (row, st)
  | none => init_data st id name username

/-- `DbHandler.get_user_rank`: 0 when `id` has no row, otherwise one plus
the number of rows with strictly greater balance. -/
def get_user_rank (st : DbState) (id : Int) : Nat :=
  match st.gamblers.find? (fun r => r.id = id) with
  | none => 0
  | some row =>
    (st.gamblers.filter (fun r => r.balance_cents > row.balance_cents)).length + 1

/-- Python's `str.upper()` for the ASCII symbol names. -/
def strUpper (s : String) : String := String.mk (s.data.map Char.toUpper)

/-- `SlotEmoji[symbol.upper()].value` for one combination symbol name. -/
def nameToEmojiValue (s : String) : Option String :=
  (SlotEmoji.fromName (strUpper s)).map SlotEmoji.value

/-- Convert a combination's three symbol names to their emoji values; a
failed enum name lookup is a `KeyError`, modelled as `none`. -/
def namesToEmojiValues (t : String × String × String) : Option (List String) :=
  match nameToEmojiValue t.1, nameToEmojiValue t.2.1, nameToEmojiValue t.2.2 with
  | some a, some b, some c => some [a, b, c]
  | _, _, _ => none

/-- `Paytable.get_payout_multiplier`: 0 when `value` is not a key of the
mappings, otherwise the first-match multiplier for the mapped combination. -/
def get_payout_multiplier (entries : List PaytableEntry) (value : Int)
    (slot_mappings : Int → Option (String × String × String)) :
    Except PlayError Nat :=
  match slot_mappings value with
  | none => .ok 0
  | some slot_result =>
    match namesToEmojiValues slot_result with
    | none => .error .keyError
    | some slot_emojis => .ok (resolveEntries entries slot_emojis)

/-- `DbHandler.process_slot_machine`. `persistOk` models whether the
persistence transaction (step 5) succeeds; on failure the code rolls the
transaction back and returns the pre-transaction balance. Errors raised
before the `try` block (tally indexing, dictionary and enum lookups)
propagate to the caller as `Except.error`. -/
def process_slot_machine (cfg : BotConfig) (persistOk : Bool) (st : DbState)
    (id : Int) (name username : String) (value : Int) (emoji : String)
    (paytable : List PaytableEntry) (paytableSerialized : String)
    (bet_cents : Nat) : Except PlayError (Int × DbState) :=
  if cfg.dev_mode then .ok (0, st)
  else
    let (data, st1) := get_data st id name username
    match pyIndex data.tally.length (value - 1) with
    | none => .error .indexError
    | some j =>
      let tally := listModify data.tally j (fun t => t + 1)
      match SLOT_MACHINE_VALUE value with
      | none => .error .keyError
      | some slot_result =>
        match namesToEmojiValues slot_result with
        | none => .error .keyError
        | some slot_emojis =>
          let payout_mult := resolveEntries paytable slot_emojis
          let balance := data.balance_cents - (bet_cents : Int)
            + ((payout_mult * bet_cents : Nat) : Int)
          if persistOk then
            let st2 : DbState :=
              { gamblers := st1.gamblers.map (fun r =>
                  if r.id = id then
                    { r with tally := tally, balance_cents := balance }
                  else r),
                ledger := st1.ledger
                  ++ [⟨id, emoji, value, paytableSerialized, bet_cents⟩] }
            .ok (balance, st2)
          else
            .ok (data.balance_cents, st1)

/-! ## Paytable display (`Paytable.to_display_string`) -/

/-- Render a cent amount with two decimals: the exact-decimal reading of the
source's `f-string` formatting of `cents / 100`. -/
def formatCents (k : Nat) : String :=
  toString (k / 100) ++ "." ++ (if k % 100 < 10 then "0" else "")
    ++ toString (k % 100)

/-- A string repeated `n` times (Python's `s * n`). -/
def repeatStr (s : String) : Nat → String
  | 0 => ""
  | n + 1 => s ++ repeatStr s n

/-- One loop iteration of `Paytable.to_display_string`: classify the entry
by its wildcard count and render its line. The source's `combo[0] ==
combo[1]` comparison is modelled on optional positions, which agrees with
the code for every pattern of length at least 2. -/
def entryDisplayLine (e : PaytableEntry) (bet_cents : Nat) : String :=
  let payout_amount := formatCents (e.payout_mult * bet_cents)
  let non_any := e.combo.filter (fun x => x ≠ SlotEmoji.any)
  let any_count := e.combo.countP (fun x => x = SlotEmoji.any)
  let tail := ": x" ++ toString e.payout_mult ++ " ($" ++ payout_amount ++ ")\n"
  if any_count = 0 then
    repeatStr (non_any.headD .any).value 3 ++ tail
  else if any_count = 2 ∧ non_any.length = 1 then
    "Any " ++ (non_any.headD .any).value ++ tail
  else if any_count = 1 ∧ e.combo.get? 0 = e.combo.get? 1
      ∧ e.combo.get? 0 ≠ some SlotEmoji.any then
    "Any two " ++ (non_any.headD .any).value ++ tail
  else
    "Any combo of " ++ String.join (non_any.map SlotEmoji.value) ++ tail

/-- `Paytable.to_display_string`: header, one line per entry, bet footer. -/
def to_display_string (entries : List PaytableEntry) (bet_cents : Nat) : String :=
  "Payout:\n" ++ String.join (entries.map (fun e => entryDisplayLine e bet_cents))
    ++ "\nBet Amount = $" ++ formatCents bet_cents

/-! ## Specification-side definitions, for refinement comparisons -/

/-- Following the specification's construction rule: all 64 ordered triplets
generated by iterating the first, second and third position independently
over the alphabet in its fixed order. -/
def specCrossProduct : List (String × String × String) :=
  symbols.flatMap (fun a => symbols.flatMap (fun b => symbols.map (fun c => (a, b, c))))

/-- Following the specification's rank rule: 0 when no account with the id
exists, otherwise one plus the count of accounts whose balance is strictly
greater than the account's balance. -/
def specRank (st : DbState) (id : Int) : Nat :=
  match st.gamblers.find? (fun r => r.id = id) with
  | none => 0
  | some row => 1 + st.gamblers.countP (fun r => row.balance_cents < r.balance_cents)

/-- The specification's rank example: three accounts with balances
[100, 100, 50]. -/
def rankExample : DbState :=
  ⟨[⟨1, "a", [], 100, "ua"⟩, ⟨2, "b", [], 100, "ub"⟩, ⟨3, "c", [], 50, "uc"⟩], []⟩

/-! ## Helper lemmas -/

set_option maxRecDepth 4000 in
/-- Every key of the combination table lies in [1, 64]. -/
lemma slotKeys_bounded : ∀ p ∈ slotMachineValueList, 1 ≤ p.1 ∧ p.1 ≤ 64 := by
  decide

/-- Out-of-range indices have no combination table entry. -/
lemma SLOT_MACHINE_VALUE_eq_none (value : Int) (h : value < 1 ∨ 64 < value) :
    SLOT_MACHINE_VALUE value = none := by
  unfold SLOT_MACHINE_VALUE
  rw [Option.map_eq_none', List.find?_eq_none]
  intro p hp
  have hb := slotKeys_bounded p hp
  simp only [decide_eq_true_eq]
  omega

set_option maxRecDepth 8000 in
/-- Every in-range index resolves through the table and the emoji name
lookups. -/
lemma slot_lookup_isSome :
    ∀ k : Fin 64, ((SLOT_MACHINE_VALUE ((k : Nat) + 1)).bind namesToEmojiValues).isSome := by
  decide

/-- Existential form of `slot_lookup_isSome` for an in-range `Int` index. -/
lemma slot_lookup_success (v : Int) (h1 : 1 ≤ v) (h2 : v ≤ 64) :
    ∃ s es, SLOT_MACHINE_VALUE v = some s ∧ namesToEmojiValues s = some es := by
  have hk : (v - 1).toNat < 64 := by omega
  have hsome : ((SLOT_MACHINE_VALUE (((v - 1).toNat : Int) + 1)).bind
      namesToEmojiValues).isSome := slot_lookup_isSome ⟨(v - 1).toNat, hk⟩
  have hv : ((v - 1).toNat : Int) + 1 = v := by omega
  rw [hv] at hsome
  cases hS : SLOT_MACHINE_VALUE v with
  | none => rw [hS] at hsome; simp at hsome
  | some s =>
    rw [hS] at hsome
    cases hE : namesToEmojiValues s with
    | none => simp [hE] at hsome
    | some es => exact ⟨s, es, rfl, hE⟩

/-- `pyIndex` for an in-range one-based value over a 64-slot list. -/
lemma pyIndex_64 (v : Int) (h1 : 1 ≤ v) (h2 : v ≤ 64) :
    pyIndex 64 (v - 1) = some (v - 1).toNat := by
  have hneg : ¬ (v - 1 < 0) := by omega
  simp only [pyIndex, hneg, if_false]
  rw [if_pos]
  constructor <;> omega

/-- Modifying position `j` changes exactly that position. -/
lemma listModify_get_self {α : Type} (l : List α) (j : Nat) (f : α → α) :
    (listModify l j f).get? j = (l.get? j).map f := by
  induction l generalizing j with
  | nil => cases j <;> rfl
  | cons a t ih =>
    cases j with
    | zero => rfl
    | succ n => simpa [listModify] using ih n

/-- Modifying position `j` leaves the other positions unchanged. -/
lemma listModify_get_other {α : Type} (l : List α) (j k : Nat) (f : α → α)
    (h : k ≠ j) : (listModify l j f).get? k = l.get? k := by
  induction l generalizing j k with
  | nil => cases j <;> rfl
  | cons a t ih =>
    cases j with
    | zero => cases k with
      | zero => exact absurd rfl h
      | succ n => rfl
    | succ n =>
      cases k with
      | zero => rfl
      | succ m => simpa [listModify] using ih n m (by omega)

/-- First-match lookup after an id-preserving row update still finds the
first row with the id, now updated. -/
lemma find?_map_update (l : List GamblerRow) (id : Int) (row : GamblerRow)
    (tally : List Nat) (balance : Int)
    (h : l.find? (fun r => r.id = id) = some row) :
    (l.map (fun r => if r.id = id then
        { r with tally := tally, balance_cents := balance } else r)).find?
        (fun r => r.id = id)
      = some { row with tally := tally, balance_cents := balance } := by
  induction l with
  | nil => simp at h
  | cons a t ih =>
    by_cases ha : a.id = id
    · rw [List.find?_cons_of_pos _ (by simpa using ha)] at h
      rw [List.map_cons, if_pos ha, List.find?_cons_of_pos _ (by simpa using ha)]
      simp only [Option.some.injEq] at h
      rw [h]
    · rw [List.find?_cons_of_neg _ (by simpa using ha)] at h
      rw [List.map_cons, if_neg ha, List.find?_cons_of_neg _ (by simpa using ha)]
      exact ih h

/-! ## Claim theorems -/

set_option maxRecDepth 4000 in
/-- C3: the index-to-combination mapping assigns indices 1..64 in nested
first/second/third iteration order over the fixed alphabet; the 64 triplets
are pairwise distinct and are exactly the full cross-product, with index 1
being (first, first, first) and index 64 (last, last, last). -/
theorem combination_space_bijection :
    slotMachineValueList.map Prod.fst = List.range' 1 64
    ∧ (slotMachineValueList.map Prod.snd).Nodup
    ∧ slotMachineValueList.map Prod.snd = specCrossProduct
    ∧ SLOT_MACHINE_VALUE 1 = some ("bar", "bar", "bar")
    ∧ SLOT_MACHINE_VALUE 64 = some ("seven", "seven", "seven") := by
  decide

/-- C4: a length-3 entry matches exactly when every position is the
wildcard or equals the combination's symbol there; resolution returns the
first matching entry's multiplier (0 when none matches); swapping a
specific entry with its wildcard generalization changes the result. -/
theorem paytable_resolution_first_match_wins :
    (∀ (p1 p2 p3 : SlotEmoji) (m : Nat) (s1 s2 s3 : String),
      (PaytableEntry.mk [p1, p2, p3] m).matches [s1, s2, s3] = true
        ↔ ((p1 = .any ∨ p1.value = s1) ∧ (p2 = .any ∨ p2.value = s2)
            ∧ (p3 = .any ∨ p3.value = s3)))
    ∧ (∀ (entries : List PaytableEntry) (slot : List String),
      resolveEntries entries slot
        = ((entries.find? (fun e => e.matches slot)).map PaytableEntry.payout_mult).getD 0)
    ∧ resolveEntries [⟨[.seven, .seven, .seven], 80⟩, ⟨[.seven, .seven, .any], 1⟩]
        ["SEVEN", "SEVEN", "SEVEN"] = 80
    ∧ resolveEntries [⟨[.seven, .seven, .any], 1⟩, ⟨[.seven, .seven, .seven], 80⟩]
        ["SEVEN", "SEVEN", "SEVEN"] = 1 := by
  refine ⟨?_, ?_, by decide, by decide⟩
  · intro p1 p2 p3 m s1 s2 s3
    simp [PaytableEntry.matches]
  · intro entries slot
    induction entries with
    | nil => rfl
    | cons e t ih =>
      by_cases h : e.matches slot
      · simp [resolveEntries, h, List.find?_cons_of_pos _ h]
      · rw [List.find?_cons_of_neg _ (by simpa using h)]
        simpa [resolveEntries, h] using ih

/-- C6 counterexample: an entry whose combo has length 2 is accepted by the
paytable loader without any error. -/
theorem paytable_load_accepts_short_combo :
    loadFromConfig [(["SEVEN", "SEVEN"], 5)] = .ok [⟨[.seven, .seven], 5⟩] := rfl

/-- C6 amended: construction from a configured list fails exactly when the
list is empty; combo lengths are not validated. -/
theorem paytable_load_rejects_only_empty (cfg : List (List String × Nat)) :
    (∃ msg, loadFromConfig cfg = .error msg) ↔ cfg = [] := by
  cases cfg with
  | nil => simp [loadFromConfig]
  | cons a t => simp [loadFromConfig]

/-- C8: rank is 0 for an unknown id and otherwise one plus the number of
accounts with strictly greater balance; with balances [100, 100, 50] the two
100-balance accounts rank 1 and the 50-balance account ranks 3. -/
theorem rank_matches_spec :
    (∀ (st : DbState) (id : Int), get_user_rank st id = specRank st id)
    ∧ get_user_rank rankExample 1 = 1
    ∧ get_user_rank rankExample 2 = 1
    ∧ get_user_rank rankExample 3 = 3 := by
  refine ⟨fun st id => ?_, by decide, by decide, by decide⟩
  unfold get_user_rank specRank
  cases h : st.gamblers.find? (fun r => r.id = id) with
  | none => rfl
  | some row => simp [List.countP_eq_length_filter, gt_iff_lt, Nat.add_comm]

set_option maxRecDepth 10000 in
/-- C7: over the indices 1..64, each of the four triple names is assigned to
exactly one index, "Double Bar" is assigned exactly to the 9 indices whose
combination has exactly two "bar" positions (which excludes the all-bar
index), and every other index yields the capitalized symbol names joined by
"-". -/
theorem combo_name_partition :
    ((List.range' 1 64).filter (fun i => get_combo_name (i : Int) = some "Triple Seven")).length = 1
    ∧ ((List.range' 1 64).filter (fun i => get_combo_name (i : Int) = some "Triple Bar")).length = 1
    ∧ ((List.range' 1 64).filter (fun i => get_combo_name (i : Int) = some "Triple Lemon")).length = 1
    ∧ ((List.range' 1 64).filter (fun i => get_combo_name (i : Int) = some "Triple Grape")).length = 1
    ∧ (List.range' 1 64).filter (fun i => get_combo_name (i : Int) = some "Double Bar")
        = (List.range' 1 64).filter (fun i =>
            match SLOT_MACHINE_VALUE (i : Int) with
            | some (a, b, c) =>
              ([a, b, c].filter (fun s => s = "bar")).length = 2
            | none => false)
    ∧ ((List.range' 1 64).filter (fun i => get_combo_name (i : Int) = some "Double Bar")).length = 9
    ∧ (List.range' 1 64).all (fun i =>
        decide (get_combo_name (i : Int) = some "Triple Seven")
        || decide (get_combo_name (i : Int) = some "Triple Bar")
        || decide (get_combo_name (i : Int) = some "Triple Lemon")
        || decide (get_combo_name (i : Int) = some "Triple Grape")
        || decide (get_combo_name (i : Int) = some "Double Bar")
        || (match SLOT_MACHINE_VALUE (i : Int) with
            | some (a, b, c) =>
              decide (get_combo_name (i : Int)
                = some (a.capitalize ++ "-" ++ b.capitalize ++ "-" ++ c.capitalize))
            | none => false)) := by
  decide

/-- C10: any configuration token other than the four concrete symbol values
is mapped by `SlotEmoji.from_value` to the wildcard `ANY`, so a misspelled
symbol in a configured entry silently becomes a match-anything position. -/
theorem unknown_token_maps_to_wildcard (v : String)
    (h7 : v ≠ "SEVEN") (hb : v ≠ "BAR") (hl : v ≠ "LEMON") (hg : v ≠ "GRAPE") :
    SlotEmoji.from_value v = .any
    ∧ ∀ (a b : String) (m : Nat),
      (PaytableEntry.ofConfig [a, v, b] m).combo.get? 1 = some .any := by
  have hfv : SlotEmoji.from_value v = .any := by
    by_cases hv : v = ""
    · subst hv; rfl
    · simp [SlotEmoji.from_value, emojiMembers, List.find?, SlotEmoji.value,
        Ne.symm h7, Ne.symm hb, Ne.symm hl, Ne.symm hg, Ne.symm hv]
  exact ⟨hfv, fun a b m => by simp [PaytableEntry.ofConfig, hfv]⟩

/-- C10 witness: the misspelled token "SEVN" becomes the wildcard. -/
theorem unknown_token_maps_to_wildcard_witness :
    SlotEmoji.from_value "SEVN" = .any
    ∧ ∀ (a b : String) (m : Nat),
      (PaytableEntry.ofConfig [a, "SEVN", b] m).combo.get? 1 = some .any :=
  unknown_token_maps_to_wildcard "SEVN"
    (by decide) (by decide) (by decide) (by decide)

/-- C1: when the persistence step of a play fails, the transaction is
rolled back: the returned value is the pre-transaction balance, no exception
escapes (the result is `ok`), and the database state — balance, tally and
ledger — is exactly its pre-call value. -/
theorem play_failure_rolls_back (cfg : BotConfig) (st : DbState) (id : Int)
    (name username emoji pts : String) (pt : List PaytableEntry)
    (value : Int) (bet : Nat) (row : GamblerRow)
    (hdev : cfg.dev_mode = false)
    (hrow : st.gamblers.find? (fun r => r.id = id) = some row)
    (htal : row.tally.length = 64)
    (h1 : 1 ≤ value) (h2 : value ≤ 64) :
    process_slot_machine cfg false st id name username value emoji pt pts bet
      = .ok (row.balance_cents, st) := by
  obtain ⟨s, es, hS, hE⟩ := slot_lookup_success value h1 h2
  simp only [process_slot_machine, hdev, Bool.false_eq_true, if_false, get_data, hrow,
    htal, pyIndex_64 value h1 h2, hS, hE]

/-- C1 witness: a failing persistence step on a concrete one-account state
returns the stored balance 100 and leaves the state untouched. -/
theorem play_failure_rolls_back_witness :
    process_slot_machine ⟨false⟩ false ⟨[⟨5, "n", List.replicate 64 0, 100, "u"⟩], []⟩
      5 "n" "u" 64 "E" [] "pt" 25
      = .ok (100, ⟨[⟨5, "n", List.replicate 64 0, 100, "u"⟩], []⟩) :=
  play_failure_rolls_back ⟨false⟩ ⟨[⟨5, "n", List.replicate 64 0, 100, "u"⟩], []⟩
    5 "n" "u" "E" "pt" [] 64 25 ⟨5, "n", List.replicate 64 0, 100, "u"⟩
    rfl (by decide) (by decide) (by decide) (by decide)

/-- C2: a successful play with old balance B, bet b and resolved multiplier
m returns B − b + m·b, stores that balance, and increments exactly the
played outcome's tally counter by one. -/
theorem play_success_balance_and_tally (cfg : BotConfig) (st : DbState) (id : Int)
    (name username emoji pts : String) (pt : List PaytableEntry)
    (value : Int) (bet : Nat) (row : GamblerRow) (s : String × String × String)
    (es : List String) (t0 : Nat)
    (hdev : cfg.dev_mode = false)
    (hrow : st.gamblers.find? (fun r => r.id = id) = some row)
    (htal : row.tally.length = 64)
    (h1 : 1 ≤ value) (h2 : value ≤ 64)
    (hS : SLOT_MACHINE_VALUE value = some s)
    (hE : namesToEmojiValues s = some es)
    (ht0 : row.tally.get? (value - 1).toNat = some t0) :
    ∃ st2, process_slot_machine cfg true st id name username value emoji pt pts bet
        = .ok (row.balance_cents - (bet : Int)
            + ((resolveEntries pt es * bet : Nat) : Int), st2)
      ∧ ∃ row2, st2.gamblers.find? (fun r => r.id = id) = some row2
        ∧ row2.balance_cents = row.balance_cents - (bet : Int)
            + ((resolveEntries pt es * bet : Nat) : Int)
        ∧ row2.tally.get? (value - 1).toNat = some (t0 + 1)
        ∧ (∀ k, k ≠ (value - 1).toNat → row2.tally.get? k = row.tally.get? k) := by
  refine ⟨⟨st.gamblers.map (fun r => if r.id = id then
      { r with tally := listModify row.tally (value - 1).toNat (fun t => t + 1),
               balance_cents := row.balance_cents - (bet : Int)
                 + ((resolveEntries pt es * bet : Nat) : Int) }
    else r), st.ledger ++ [⟨id, emoji, value, pts, bet⟩]⟩, ?_, ?_⟩
  · simp only [process_slot_machine, hdev, Bool.false_eq_true, if_false, get_data, hrow,
      htal, pyIndex_64 value h1 h2, hS, hE, if_true]
  · refine ⟨_, find?_map_update st.gamblers id row _ _ hrow, rfl, ?_, ?_⟩
    · rw [listModify_get_self, ht0]; rfl
    · intro k hk
      exact listModify_get_other row.tally (value - 1).toNat k _ hk

/-- C2 witness at the claim's examples: on balance 100 with bet 25, a
triple-seven play against an 80-multiplier entry yields 100−25+2000 = 2075,
and a play resolving to multiplier 0 yields 100−25 = 75; each bumps the
outcome's tally cell from 0 to 1. -/
theorem play_success_balance_and_tally_witness :
    (∃ st2, process_slot_machine ⟨false⟩ true
        ⟨[⟨5, "n", List.replicate 64 0, 100, "u"⟩], []⟩
        5 "n" "u" 64 "E" [⟨[.seven, .seven, .seven], 80⟩] "pts" 25
        = .ok (2075, st2)
      ∧ ∃ row2, st2.gamblers.find? (fun r => r.id = 5) = some row2
        ∧ row2.balance_cents = 2075
        ∧ row2.tally.get? 63 = some 1
        ∧ (∀ k, k ≠ 63 → row2.tally.get? k = (List.replicate 64 (0 : Nat)).get? k))
    ∧ (∃ st2, process_slot_machine ⟨false⟩ true
        ⟨[⟨5, "n", List.replicate 64 0, 100, "u"⟩], []⟩
        5 "n" "u" 64 "E" [] "pts" 25
        = .ok (75, st2)
      ∧ ∃ row2, st2.gamblers.find? (fun r => r.id = 5) = some row2
        ∧ row2.balance_cents = 75
        ∧ row2.tally.get? 63 = some 1
        ∧ (∀ k, k ≠ 63 → row2.tally.get? k = (List.replicate 64 (0 : Nat)).get? k)) :=
  ⟨play_success_balance_and_tally ⟨false⟩ ⟨[⟨5, "n", List.replicate 64 0, 100, "u"⟩], []⟩
      5 "n" "u" "E" "pts" [⟨[.seven, .seven, .seven], 80⟩] 64 25
      ⟨5, "n", List.replicate 64 0, 100, "u"⟩ ("seven", "seven", "seven")
      ["SEVEN", "SEVEN", "SEVEN"] 0
      rfl (by decide) (by decide) (by decide) (by decide) rfl rfl rfl,
    play_success_balance_and_tally ⟨false⟩ ⟨[⟨5, "n", List.replicate 64 0, 100, "u"⟩], []⟩
      5 "n" "u" "E" "pts" [] 64 25
      ⟨5, "n", List.replicate 64 0, 100, "u"⟩ ("seven", "seven", "seven")
      ["SEVEN", "SEVEN", "SEVEN"] 0
      rfl (by decide) (by decide) (by decide) (by decide) rfl rfl rfl⟩

/-- C5 counterexample: with index 65 a play fails with the unchecked
`IndexError` of the tally update, with index 0 with the `KeyError` of the
combination dictionary — neither is the dedicated out-of-range error — and
`get_payout_multiplier` returns 0 for index 65 instead of failing. -/
theorem out_of_range_counterexample :
    process_slot_machine ⟨false⟩ true ⟨[⟨5, "n", List.replicate 64 0, 100, "u"⟩], []⟩
      5 "n" "u" 65 "E" [] "pt" 25 = .error .indexError
    ∧ process_slot_machine ⟨false⟩ true ⟨[⟨5, "n", List.replicate 64 0, 100, "u"⟩], []⟩
      5 "n" "u" 0 "E" [] "pt" 25 = .error .keyError
    ∧ process_slot_machine ⟨false⟩ true ⟨[⟨5, "n", List.replicate 64 0, 100, "u"⟩], []⟩
      5 "n" "u" 65 "E" [] "pt" 25 ≠ .error .outOfRange
    ∧ get_payout_multiplier [] 65 SLOT_MACHINE_VALUE = .ok 0 := by
  refine ⟨rfl, rfl, ?_, rfl⟩
  intro h
  injection h with h2
  cases h2

/-- C5 amended: an out-of-range index makes the play fail with an unchecked
lookup exception (`IndexError` or `KeyError`), never a dedicated
out-of-range error, and `get_payout_multiplier` returns 0 for it without
failing. -/
theorem out_of_range_lookup_fails (cfg : BotConfig) (persistOk : Bool) (st : DbState)
    (id : Int) (name username emoji pts : String) (pt : List PaytableEntry)
    (bet : Nat) (value : Int) (row : GamblerRow)
    (hdev : cfg.dev_mode = false)
    (hrow : st.gamblers.find? (fun r => r.id = id) = some row)
    (htal : row.tally.length = 64)
    (hval : value < 1 ∨ 64 < value) :
    (process_slot_machine cfg persistOk st id name username value emoji pt pts bet
        = .error .indexError
      ∨ process_slot_machine cfg persistOk st id name username value emoji pt pts bet
        = .error .keyError)
    ∧ process_slot_machine cfg persistOk st id name username value emoji pt pts bet
        ≠ .error .outOfRange
    ∧ get_payout_multiplier pt value SLOT_MACHINE_VALUE = .ok 0 := by
  have hnone := SLOT_MACHINE_VALUE_eq_none value hval
  have hmain : process_slot_machine cfg persistOk st id name username value emoji pt pts bet
        = .error .indexError
      ∨ process_slot_machine cfg persistOk st id name username value emoji pt pts bet
        = .error .keyError := by
    cases hpy : pyIndex 64 (value - 1) with
    | none =>
      left
      simp only [process_slot_machine, hdev, Bool.false_eq_true, if_false, get_data,
        hrow, htal, hpy]
    | some j =>
      right
      simp only [process_slot_machine, hdev, Bool.false_eq_true, if_false, get_data,
        hrow, htal, hpy, hnone]
  refine ⟨hmain, ?_, by simp [get_payout_multiplier, hnone]⟩
  rcases hmain with h | h <;> rw [h] <;> simp

/-- C5 amended witness at index 65 on a concrete one-account state. -/
theorem out_of_range_lookup_fails_witness :
    (process_slot_machine ⟨false⟩ true ⟨[⟨5, "n", List.replicate 64 0, 100, "u"⟩], []⟩
        5 "n" "u" 65 "E" [] "pt" 25 = .error .indexError
      ∨ process_slot_machine ⟨false⟩ true ⟨[⟨5, "n", List.replicate 64 0, 100, "u"⟩], []⟩
        5 "n" "u" 65 "E" [] "pt" 25 = .error .keyError)
    ∧ process_slot_machine ⟨false⟩ true ⟨[⟨5, "n", List.replicate 64 0, 100, "u"⟩], []⟩
        5 "n" "u" 65 "E" [] "pt" 25 ≠ .error .outOfRange
    ∧ get_payout_multiplier [] 65 SLOT_MACHINE_VALUE = .ok 0 :=
  out_of_range_lookup_fails ⟨false⟩ true ⟨[⟨5, "n", List.replicate 64 0, 100, "u"⟩], []⟩
    5 "n" "u" "E" "pt" [] 25 65 ⟨5, "n", List.replicate 64 0, 100, "u"⟩
    rfl (by decide) (by decide) (by decide)

end Fenrir
